import Mathlib

/-!
Shallow embedding of the forward physically-based render pass
(amethyst_renderer, pass/pbm/separate.rs) and the helpers it calls.

The pass source under src/ is `DrawPbmSeparate` (the builder methods, the
`compile` pipeline assembly and the per-frame `apply` traversal).  The
helpers it invokes (`get_camera`, `set_light_args`, `draw_mesh`,
`create_skinning_effect`, `setup_skinning_buffers`, `setup_vertex_args`,
`setup_light_buffers`, `setup_textures`, the effect builder methods) live
in sibling modules that are not part of the provided sources; those are
modelled from the specification, each marked `Modelled from the spec:` in
its doc comment.

Machine-level detail that the claims do not touch (actual matrix algebra,
texture pixel data, GPU command encoding) is abstracted to opaque tags:
a camera is its (projection, view) pair of opaque matrix tags, a material
is an opaque tag, and a draw call records exactly the data the pass binds
for it.
-/

/-! ### Opaque leaf types

Entities are identified by natural numbers (the dense entity index of the
component store).  Matrices, materials and meshes are opaque tags: the
pass never inspects them, it only moves them from component storage into
draw calls. -/

/-- Entity identifier (dense entity index of the component store). -/
abbrev EntityId : Type := Nat

/-- Opaque tag for a mesh resident in the mesh asset storage. -/
abbrev MeshData : Type := Nat

/-- Handle referencing a mesh in the mesh asset storage (content address). -/
abbrev MeshHandle : Type := Nat

/-- Opaque tag for a material (its texture-channel handles are not
inspected by the traversal logic modelled here). -/
abbrev MaterialData : Type := Nat

/-- Opaque tag for a world-space transform matrix. -/
abbrev GlobalTransformData : Type := Nat

/-- Opaque tag for a camera's projection matrix. -/
abbrev CameraData : Type := Nat

/-- Skeletal pose: ordered sequence of joint matrices (opaque tags). -/
abbrev JointTransformsData : Type := List Nat

/-- Modelled from the spec: the identity joint set used when a skinned
entity has no JointTransforms component (graceful degradation to an
unskinned pose).  It is the default value of the component type. -/
def identityJoints : JointTransformsData := []

/-- A light component.  The variants carry opaque parameter tags
(center/radius/intensity/color for point, direction/color for
directional); the traversal only counts and copies lights, never
inspects them. -/
inductive Light where
  | point (params : Nat) : Light
  | directional (params : Nat) : Light
deriving DecidableEq, Repr

/-- Color write mask of the output target (opaque bitmask tag, supplied
by the caller of with_transparency). -/
structure ColorMask where
  bits : Nat
deriving DecidableEq, Repr

/-- Blend function for the blended output target (opaque tag, supplied by
the caller of with_transparency). -/
structure Blend where
  mode : Nat
deriving DecidableEq, Repr

/-- Depth test/write mode of an output target. -/
inductive DepthMode where
  | LessEqualTest : DepthMode
  | LessEqualWrite : DepthMode
deriving DecidableEq, Repr

/-! ### The pass configuration (source: struct DrawPbmSeparate and its
builder methods, src/amethyst_renderer/src/pass/pbm/separate.rs:35-63) -/

/-- Source: `struct DrawPbmSeparate { skinning: bool, transparency:
Option<(ColorMask, Blend, Option<DepthMode>)> }`. -/
structure DrawPbmSeparate where
  skinning : Bool
  transparency : Option (ColorMask × Blend × Option DepthMode)
deriving DecidableEq, Repr

namespace DrawPbmSeparate

/-- Source: `DrawPbmSeparate::new` returns `Default::default()`:
skinning disabled, no transparency. -/
def new : DrawPbmSeparate := { skinning := false, transparency := none }

/-- Source: `with_vertex_skinning` sets the skinning flag. -/
def with_vertex_skinning (p : DrawPbmSeparate) : DrawPbmSeparate :=
  { p with skinning := true }

/-- Source: `with_transparency` stores the supplied
(mask, blend, depth) triple. -/
def with_transparency (p : DrawPbmSeparate) (mask : ColorMask)
    (blend : Blend) (depth : Option DepthMode) : DrawPbmSeparate :=
  { p with transparency := some (mask, blend, depth) }

end DrawPbmSeparate

/-! ### Effect compilation

The effect builder is modelled as an accumulating record of registration
events, in the order the builder methods are called; `build` freezes it
into the Effect.  The event trace lets order-of-registration properties
be stated directly. -/

/-- Vertex shader source selector (the actual GLSL text is opaque). -/
inductive VertShader where
  | basic : VertShader
  | skinned : VertShader
deriving DecidableEq, Repr

/-- One registration performed on the effect builder. -/
inductive RegEvent where
  | vertexBuffer (attrs : String) (stride : Nat) : RegEvent
  | uniform (name : String) : RegEvent
  | texture (name : String) : RegEvent
  | outputBlended (target : String) (mask : ColorMask) (blend : Blend)
      (depth : Option DepthMode) : RegEvent
  | outputOpaque (target : String) (depth : Option DepthMode) : RegEvent
deriving DecidableEq, Repr

/-- Whether a registration event configures the output target. -/
def RegEvent.isOutput : RegEvent → Bool
  | .outputBlended _ _ _ _ => true
  | .outputOpaque _ _ => true
  | _ => false

/-- The staged effect builder: chosen vertex shader plus the ordered
trace of registrations. -/
structure EffectBuilder where
  vertShader : VertShader
  events : List RegEvent
deriving DecidableEq, Repr

/-- The compiled, immutable Effect (frozen builder state). -/
structure Effect where
  vertShader : VertShader
  events : List RegEvent
deriving DecidableEq, Repr

/-- Modelled from the spec: `NewEffect::simple` (pipe module, not under
src/) starts a builder from the basic vertex shader and the fragment
shader, with no registrations yet. -/
def NewEffect.simple : EffectBuilder :=
  { vertShader := .basic, events := [] }

/-- Modelled from the spec: `create_skinning_effect` (pass/skinning.rs,
not under src/) starts a builder from the skin-aware vertex shader
variant. -/
def create_skinning_effect : EffectBuilder :=
  { vertShader := .skinned, events := [] }

/-- Modelled from the spec: builder method registering one raw vertex
buffer binding for an attribute group with its own stride. -/
def with_raw_vertex_buffer (b : EffectBuilder) (attrs : String)
    (stride : Nat) : EffectBuilder :=
  { b with events := b.events ++ [.vertexBuffer attrs stride] }

/-- Modelled from the spec: Position attribute group, 3 floats of 4 bytes. -/
def positionSize : Nat := 12

/-- Modelled from the spec: Normal attribute group, 3 floats of 4 bytes. -/
def normalSize : Nat := 12

/-- Modelled from the spec: Tangent attribute group, 3 floats of 4 bytes. -/
def tangentSize : Nat := 12

/-- Modelled from the spec: TexCoord attribute group, 2 floats of 4 bytes. -/
def texCoordSize : Nat := 8

/-- Modelled from the spec: joint-index attribute group (4 joint indices
per vertex). -/
def jointIdsSize : Nat := 8

/-- Modelled from the spec: joint-weight attribute group (4 float weights
per vertex). -/
def jointWeightsSize : Nat := 16

/-- Modelled from the spec: `setup_skinning_buffers` (pass/skinning.rs,
not under src/) adds joint-index and joint-weight vertex attribute
bindings and a joint-transform-matrix uniform buffer sized for a fixed
maximum joint count. -/
def setup_skinning_buffers (b : EffectBuilder) : EffectBuilder :=
  { b with events := b.events ++
      [.vertexBuffer "joint_ids" jointIdsSize,
       .vertexBuffer "joint_weights" jointWeightsSize,
       .uniform "joint_transforms"] }

/-- Modelled from the spec: `setup_vertex_args` (pass/util.rs, not under
src/) registers the per-object and per-camera uniform buffers. -/
def setup_vertex_args (b : EffectBuilder) : EffectBuilder :=
  { b with events := b.events ++
      [.uniform "per_object_transform", .uniform "per_camera_viewproj"] }

/-- Modelled from the spec: `setup_light_buffers` (pass/shaded_util.rs,
not under src/) registers the ambient-color slot and the light uniform
buffer sized for a fixed maximum light count. -/
def setup_light_buffers (b : EffectBuilder) : EffectBuilder :=
  { b with events := b.events ++
      [.uniform "ambient_color", .uniform "light_array"] }

/-- Modelled from the spec: the named texture sampler slots of the
physically-based material channels (static TEXTURES, pass/pbm module,
not under src/). -/
def TEXTURES : List String :=
  ["albedo", "emissive", "normal", "metallic_roughness",
   "ambient_occlusion"]

/-- Modelled from the spec: `setup_textures` (pass/util.rs, not under
src/) registers one texture sampler slot per listed material channel. -/
def setup_textures (b : EffectBuilder) (texs : List String) :
    EffectBuilder :=
  { b with events := b.events ++ texs.map .texture }

/-- Modelled from the spec: builder method configuring a blended output
target with caller-specified color mask, blend function and optional
depth mode. -/
def with_blended_output (b : EffectBuilder) (target : String)
    (mask : ColorMask) (blend : Blend) (depth : Option DepthMode) :
    EffectBuilder :=
  { b with events := b.events ++ [.outputBlended target mask blend depth] }

/-- Modelled from the spec: builder method configuring an opaque
depth-tested output target. -/
def with_output (b : EffectBuilder) (target : String)
    (depth : Option DepthMode) : EffectBuilder :=
  { b with events := b.events ++ [.outputOpaque target depth] }

/-- Modelled from the spec: the terminal build step freezes the builder
into the immutable Effect.  Device-level shader compilation failure is
an external condition outside this embedding. -/
def EffectBuilder.build (b : EffectBuilder) : Effect :=
  { vertShader := b.vertShader, events := b.events }

/-- Source: `DrawPbmSeparate::compile`
(src/amethyst_renderer/src/pass/pbm/separate.rs:85-123).  Chooses the
skinned or basic shader, registers the four separate attribute-group
vertex buffers, optionally the skinning buffers, then vertex args, light
buffers, textures, and configures the output last according to the
transparency setting. -/
def DrawPbmSeparate.compile (p : DrawPbmSeparate) : Effect :=
  let builder :=
    if p.skinning then create_skinning_effect else NewEffect.simple
  let builder := with_raw_vertex_buffer builder "position" positionSize
  let builder := with_raw_vertex_buffer builder "normal" normalSize
  let builder := with_raw_vertex_buffer builder "tangent" tangentSize
  let builder := with_raw_vertex_buffer builder "tex_coord" texCoordSize
  let builder :=
    if p.skinning then setup_skinning_buffers builder else builder
  let builder := setup_vertex_args builder
  let builder := setup_light_buffers builder
  let builder := setup_textures builder TEXTURES
  let builder :=
    match p.transparency with
    | some (mask, blend, depth) =>
        with_blended_output builder "color" mask blend depth
    | none => with_output builder "color" (some DepthMode.LessEqualWrite)
  builder.build

/-- The vertex buffer bindings (attribute group, stride) registered in an
Effect, in registration order. -/
def Effect.vertexBuffers (e : Effect) : List (String × Nat) :=
  e.events.filterMap fun ev =>
    match ev with
    | .vertexBuffer attrs stride => some (attrs, stride)
    | _ => none

/-- The uniform buffer slots registered in an Effect, in registration
order. -/
def Effect.uniforms (e : Effect) : List String :=
  e.events.filterMap fun ev =>
    match ev with
    | .uniform name => some name
    | _ => none

/-- The texture sampler slots registered in an Effect, in registration
order. -/
def Effect.textures (e : Effect) : List String :=
  e.events.filterMap fun ev =>
    match ev with
    | .texture name => some name
    | _ => none

/-- The output-target configuration events of an Effect. -/
def Effect.outputs (e : Effect) : List RegEvent :=
  e.events.filter RegEvent.isOutput

/-! ### The per-frame world

The read-only frame data tuple of `PassData` (separate.rs:65-82):
entities, active camera, camera storage, ambient color, mesh asset
storage, material defaults, the back-to-front transparent ordering, and
the component storages.  Component storages are total functions from
entity id to an optional component; `entities` is the storage iteration
order of the entity allocator. -/

/-- The frame data read by `apply` (PassData tuple, separate.rs:65-82).
Texture storage is omitted: the traversal only forwards it to texture
binding, which the claims do not touch. -/
structure World where
  entities : List EntityId
  activeCamera : Option EntityId
  cameraStore : EntityId → Option CameraData
  ambient : Nat
  meshStorage : MeshHandle → Option MeshData
  materialDefaults : MaterialData
  backToFront : List EntityId
  meshHandle : EntityId → Option MeshHandle
  material : EntityId → Option MaterialData
  globalT : EntityId → Option GlobalTransformData
  lightStore : EntityId → Option Light
  joints : EntityId → Option JointTransformsData
  transparent : EntityId → Bool

/-- The camera matrices used for a frame: (projection, view) pair of
opaque tags. -/
abbrev CameraArgs : Type := CameraData × GlobalTransformData

/-- Modelled from the spec: the neutral/identity camera returned when no
camera exists, so that the frame still renders. -/
def identityCamera : CameraArgs := (0, 0)

/-- The (Camera, GlobalTransform) join in entity-storage order: the
unordered camera query of the camera resolver. -/
def cameraJoin (w : World) : List CameraArgs :=
  w.entities.filterMap fun e =>
    match w.cameraStore e, w.globalT e with
    | some c, some g => some (c, g)
    | _, _ => none

/-- Modelled from the spec: `get_camera` (pass/util.rs, not under src/).
If the active-camera reference exists and that entity still has both a
Camera and a GlobalTransform, its matrices are used; otherwise the first
camera found in the camera query; if no camera exists at all, the
neutral/identity camera. -/
def get_camera (w : World) : CameraArgs :=
  let fromActive : Option CameraArgs :=
    w.activeCamera.bind fun a =>
      match w.cameraStore a, w.globalT a with
      | some c, some g => some (c, g)
      | _, _ => none
  match fromActive with
  | some cg => cg
  | none =>
      match (cameraJoin w).head? with
      | some cg => cg
      | none => identityCamera

/-- The (Light) components gathered in entity-iteration order, the join
performed by the light uniform uploader. -/
def gatherLights (w : World) : List Light :=
  w.entities.filterMap w.lightStore

/-- The packed light-uniform contents written for a frame. -/
structure LightUpload where
  ambient : Nat
  lights : List Light
deriving DecidableEq, Repr

/-- Modelled from the spec: `set_light_args` (pass/shaded_util.rs, not
under src/).  Gathers ambient color and all light components in
entity-iteration order, writes at most `maxLights` of them into the
light uniform buffer (silently dropping the excess) and the ambient
color into its own slot.  `maxLights` is the shader's fixed maximum
light count, kept as a parameter because its numeric value is shader
data not present under src/. -/
def set_light_args (maxLights : Nat) (w : World) : LightUpload :=
  { ambient := w.ambient, lights := (gatherLights w).take maxLights }

/-! ### Draw traversal -/

/-- One GPU draw call as issued by `draw_mesh`: the resolved mesh, the
bound material and world transform, the joint set bound when skinning is
enabled (`none` when the pass is unskinned), and the camera matrices. -/
structure DrawCall where
  mesh : MeshData
  material : MaterialData
  globalT : GlobalTransformData
  joints : Option JointTransformsData
  camera : CameraArgs
deriving DecidableEq, Repr

/-- The joint set bound for a draw: when skinning is enabled, the
entity's JointTransforms or the identity joint set if absent; when
disabled, nothing. -/
def jointsArg (skinning : Bool) (j : Option JointTransformsData) :
    Option JointTransformsData :=
  if skinning then some (j.getD identityJoints) else none

/-- Modelled from the spec: `draw_mesh` (pass/util.rs, not under src/).
Issues one draw call onto the encoder when the mesh asset is resolved
and the material and world transform are present; a missing mesh asset,
material or transform is a silent skip (no draw, no error).  When
skinning is enabled and the entity has no JointTransforms, the identity
joint set is bound.  The defaults material supplies unresolved texture
channels inside the bound material, a detail below this embedding. -/
def draw_mesh (enc : List DrawCall) (skinning : Bool)
    (mesh : Option MeshData) (j : Option JointTransformsData)
    (material : Option MaterialData) (defaults : MaterialData)
    (camera : CameraArgs) (globalT : Option GlobalTransformData) :
    List DrawCall :=
  match mesh, material, globalT with
  | some m, some mat, some g =>
      enc ++ [{ mesh := m, material := mat, globalT := g,
                joints := jointsArg skinning j, camera := camera }]
  | _, _, _ => enc

/-- The per-entity test of the opaque join: an entity joins when it has a
MeshHandle, a Material and a GlobalTransform and does not carry the
Transparent marker. -/
def opaqueJoinFun (w : World) (e : EntityId) :
    Option (EntityId × MeshHandle × MaterialData × GlobalTransformData) :=
  match w.meshHandle e, w.material e, w.globalT e, w.transparent e with
  | some h, some mat, some g, false => some (e, h, mat, g)
  | _, _, _, _ => none

/-- The opaque join of `apply` (separate.rs:151-152): entities having a
MeshHandle, a Material and a GlobalTransform and not carrying the
Transparent marker, in entity-storage order, with their components. -/
def joinOpaque (w : World) :
    List (EntityId × MeshHandle × MaterialData × GlobalTransformData) :=
  w.entities.filterMap (opaqueJoinFun w)

/-- The body of the opaque loop (separate.rs:154-167): one `draw_mesh`
call per joined entity. -/
def opaqueStep (p : DrawPbmSeparate) (w : World) (cam : CameraArgs)
    (enc : List DrawCall)
    (x : EntityId × MeshHandle × MaterialData × GlobalTransformData) :
    List DrawCall :=
  draw_mesh enc p.skinning (w.meshStorage x.2.1) (w.joints x.1)
    (some x.2.2.1) w.materialDefaults cam (some x.2.2.2)

/-- The opaque loop of `apply` (separate.rs:151-168). -/
def opaquePhase (p : DrawPbmSeparate) (w : World) (cam : CameraArgs)
    (enc : List DrawCall) : List DrawCall :=
  (joinOpaque w).foldl (opaqueStep p w cam) enc

/-- The body of the transparent loop (separate.rs:171-186): look up the
entity's mesh handle; when present, call `draw_mesh` with its resolved
mesh asset and its optional material and transform; when absent, leave
the encoder untouched. -/
def transparentStep (p : DrawPbmSeparate) (w : World) (cam : CameraArgs)
    (enc : List DrawCall) (e : EntityId) : List DrawCall :=
  match w.meshHandle e with
  | some h =>
      draw_mesh enc p.skinning (w.meshStorage h) (w.joints e)
        (w.material e) w.materialDefaults cam (w.globalT e)
  | none => enc

/-- The transparent loop of `apply` (separate.rs:170-187): iterate the
externally supplied back-to-front entity list. -/
def transparentPhase (p : DrawPbmSeparate) (w : World) (cam : CameraArgs)
    (enc : List DrawCall) : List DrawCall :=
  w.backToFront.foldl (transparentStep p w cam) enc

/-- One full frame of `apply` (separate.rs:125-188): resolve the camera,
upload the light uniforms, then the opaque loop followed by the
transparent loop on one encoder.  `maxLights` parameterizes the light
uploader's fixed capacity. -/
def DrawPbmSeparate.apply (p : DrawPbmSeparate) (maxLights : Nat)
    (w : World) : LightUpload × List DrawCall :=
  let cam := get_camera w
  let upload := set_light_args maxLights w
  let enc := opaquePhase p w cam []
  (upload, transparentPhase p w cam enc)

/-! ### Characterizations of the two loops

The draw issued for an entity, when one is, as a function of its
components; the loop characterization lemmas below tie these to the
fold-based loops. -/

/-- The draw the opaque loop issues for entity `e`, or `none` when `e`
is filtered out of the join or its mesh asset is unresolved. -/
def opaqueEntityCall (p : DrawPbmSeparate) (w : World) (cam : CameraArgs)
    (e : EntityId) : Option DrawCall :=
  match w.meshHandle e, w.material e, w.globalT e, w.transparent e with
  | some h, some mat, some g, false =>
      match w.meshStorage h with
      | some m => some { mesh := m, material := mat, globalT := g,
                         joints := jointsArg p.skinning (w.joints e),
                         camera := cam }
      | none => none
  | _, _, _, _ => none

/-- The draw the transparent loop issues for a listed entity `e`, or
`none` when its mesh handle is absent, its mesh asset unresolved, or its
material or transform absent. -/
def transparentEntityCall (p : DrawPbmSeparate) (w : World)
    (cam : CameraArgs) (e : EntityId) : Option DrawCall :=
  match w.meshHandle e with
  | some h =>
      match w.meshStorage h, w.material e, w.globalT e with
      | some m, some mat, some g =>
          some { mesh := m, material := mat, globalT := g,
                 joints := jointsArg p.skinning (w.joints e),
                 camera := cam }
      | _, _, _ => none
  | none => none

/-- Entity `e` receives a draw call from the opaque loop of this frame. -/
def drawnByOpaque (p : DrawPbmSeparate) (w : World) (cam : CameraArgs)
    (e : EntityId) : Bool :=
  w.entities.contains e && (opaqueEntityCall p w cam e).isSome

/-- Entity `e` receives a draw call from the transparent loop of this
frame. -/
def drawnByTransparent (p : DrawPbmSeparate) (w : World)
    (cam : CameraArgs) (e : EntityId) : Bool :=
  w.backToFront.contains e && (transparentEntityCall p w cam e).isSome

/-! ### Supporting lemmas tying the fold-based loops to their per-entity
characterizations -/

/-- An entity carrying the Transparent marker never yields an opaque
draw. -/
lemma opaqueEntityCall_of_transparent (p : DrawPbmSeparate) (w : World)
    (cam : CameraArgs) (e : EntityId) (he : w.transparent e = true) :
    opaqueEntityCall p w cam e = none := by
  rcases hmh : w.meshHandle e with _ | h <;>
    rcases hmat : w.material e with _ | mat <;>
      rcases hg : w.globalT e with _ | g <;>
        simp [opaqueEntityCall, hmh, hmat, hg, he]

/-- The opaque loop over any entity list is the concatenation of the
per-entity opaque draws, in list order. -/
lemma opaqueLoop_filterMap (p : DrawPbmSeparate) (w : World)
    (cam : CameraArgs) :
    ∀ (l : List EntityId) (enc : List DrawCall),
      (l.filterMap (opaqueJoinFun w)).foldl (opaqueStep p w cam) enc
        = enc ++ l.filterMap (opaqueEntityCall p w cam) := by
  intro l
  induction l with
  | nil => intro enc; simp
  | cons e l ih =>
      intro enc
      simp only [List.filterMap_cons]
      rcases hmh : w.meshHandle e with _ | h
      · simp [opaqueJoinFun, opaqueEntityCall, hmh, ih]
      · rcases hmat : w.material e with _ | mat
        · simp [opaqueJoinFun, opaqueEntityCall, hmh, hmat, ih]
        · rcases hg : w.globalT e with _ | g
          · simp [opaqueJoinFun, opaqueEntityCall, hmh, hmat, hg, ih]
          · rcases ht : w.transparent e with _ | _
            · rcases hms : w.meshStorage h with _ | m
              · simp [opaqueJoinFun, opaqueEntityCall, opaqueStep,
                  draw_mesh, hmh, hmat, hg, ht, hms, ih]
              · simp [opaqueJoinFun, opaqueEntityCall, opaqueStep,
                  draw_mesh, hmh, hmat, hg, ht, hms, ih]
            · simp [opaqueJoinFun, opaqueEntityCall, hmh, hmat, hg, ht,
                ih]

/-- The opaque phase appends, to the incoming encoder, exactly the
per-entity opaque draws in entity-storage order. -/
lemma opaquePhase_filterMap (p : DrawPbmSeparate) (w : World)
    (cam : CameraArgs) (enc : List DrawCall) :
    opaquePhase p w cam enc
      = enc ++ w.entities.filterMap (opaqueEntityCall p w cam) :=
  opaqueLoop_filterMap p w cam w.entities enc

/-- The transparent loop over any entity list is the concatenation of
the per-entity transparent draws, in list order. -/
lemma transparentLoop_filterMap (p : DrawPbmSeparate) (w : World)
    (cam : CameraArgs) :
    ∀ (l : List EntityId) (enc : List DrawCall),
      l.foldl (transparentStep p w cam) enc
        = enc ++ l.filterMap (transparentEntityCall p w cam) := by
  intro l
  induction l with
  | nil => intro enc; simp
  | cons e l ih =>
      intro enc
      simp only [List.filterMap_cons, List.foldl_cons]
      rcases hmh : w.meshHandle e with _ | h
      · simp [transparentStep, transparentEntityCall, hmh, ih]
      · rcases hms : w.meshStorage h with _ | m
        · rcases hmat : w.material e with _ | mat <;>
            rcases hg : w.globalT e with _ | g <;>
              simp [transparentStep, transparentEntityCall, draw_mesh,
                hmh, hms, hmat, hg, ih]
        · rcases hmat : w.material e with _ | mat <;>
            rcases hg : w.globalT e with _ | g <;>
              simp [transparentStep, transparentEntityCall, draw_mesh,
                hmh, hms, hmat, hg, ih]

/-- The transparent phase appends, to the incoming encoder, exactly the
per-entity transparent draws in back-to-front list order. -/
lemma transparentPhase_filterMap (p : DrawPbmSeparate) (w : World)
    (cam : CameraArgs) (enc : List DrawCall) :
    transparentPhase p w cam enc
      = enc ++ w.backToFront.filterMap (transparentEntityCall p w cam) :=
  transparentLoop_filterMap p w cam w.backToFront enc

/-- When `drawnByOpaque` holds, the opaque phase's output really
contains the entity's draw. -/
lemma drawnByOpaque_mem (p : DrawPbmSeparate) (w : World)
    (cam : CameraArgs) (e : EntityId)
    (h : drawnByOpaque p w cam e = true) :
    ∃ c, opaqueEntityCall p w cam e = some c
      ∧ c ∈ opaquePhase p w cam [] := by
  rcases Bool.and_eq_true_iff.mp h with ⟨h1, h2⟩
  rcases Option.isSome_iff_exists.mp h2 with ⟨c, hc⟩
  refine ⟨c, hc, ?_⟩
  rw [opaquePhase_filterMap]
  simp only [List.nil_append]
  exact List.mem_filterMap.mpr ⟨e, List.mem_of_elem_eq_true h1, hc⟩

/-- When `drawnByTransparent` holds, the transparent phase's output
really contains the entity's draw. -/
lemma drawnByTransparent_mem (p : DrawPbmSeparate) (w : World)
    (cam : CameraArgs) (e : EntityId)
    (h : drawnByTransparent p w cam e = true) :
    ∃ c, transparentEntityCall p w cam e = some c
      ∧ c ∈ transparentPhase p w cam [] := by
  rcases Bool.and_eq_true_iff.mp h with ⟨h1, h2⟩
  rcases Option.isSome_iff_exists.mp h2 with ⟨c, hc⟩
  refine ⟨c, hc, ?_⟩
  rw [transparentPhase_filterMap]
  simp only [List.nil_append]
  exact List.mem_filterMap.mpr ⟨e, List.mem_of_elem_eq_true h1, hc⟩

/-! ### Claim C10 -/

/-- Claim C10: starting from DrawPbmSeparate::new (skinning disabled, no
transparency), with_vertex_skinning and with_transparency applied in
either order yield equal pass values; applying with_vertex_skinning
twice equals applying it once; applying with_transparency twice equals
applying it once when the arguments repeat, and the last-supplied blend
configuration wins otherwise.  The commutation and idempotence hold from
an arbitrary starting pass, in particular from new. -/
theorem builder_config_commutes_and_idempotent :
    ∀ (p : DrawPbmSeparate) (m : ColorMask) (b : Blend)
      (d : Option DepthMode) (m' : ColorMask) (b' : Blend)
      (d' : Option DepthMode),
      DrawPbmSeparate.new.with_vertex_skinning.with_transparency m b d
        = (DrawPbmSeparate.new.with_transparency m b d).with_vertex_skinning
      ∧ p.with_vertex_skinning.with_vertex_skinning = p.with_vertex_skinning
      ∧ (p.with_transparency m b d).with_transparency m b d
          = p.with_transparency m b d
      ∧ (p.with_transparency m b d).with_transparency m' b' d'
          = p.with_transparency m' b' d'
      ∧ (p.with_transparency m b d).with_vertex_skinning
          = p.with_vertex_skinning.with_transparency m b d := by
  intro p m b d m' b' d'
  exact ⟨rfl, rfl, rfl, rfl, rfl⟩

/-! ### Claim C5 -/

/-- Claim C5: for every blend configuration, the Effect compiled with
vertex skinning has exactly the joint-index and joint-weight vertex
buffer bindings and the joint-transform uniform slot added over the
unskinned compilation (which contains none of them), while the remaining
vertex buffer bindings, uniform buffers, texture slots and output
configuration are identical. -/
theorem skinning_strictly_adds_joint_bindings :
    ∀ t : Option (ColorMask × Blend × Option DepthMode),
      (DrawPbmSeparate.compile ⟨true, t⟩).vertexBuffers
        = (DrawPbmSeparate.compile ⟨false, t⟩).vertexBuffers
          ++ [("joint_ids", jointIdsSize), ("joint_weights", jointWeightsSize)]
      ∧ (DrawPbmSeparate.compile ⟨true, t⟩).uniforms
        = "joint_transforms" :: (DrawPbmSeparate.compile ⟨false, t⟩).uniforms
      ∧ "joint_ids" ∉ ((DrawPbmSeparate.compile ⟨false, t⟩).vertexBuffers.map Prod.fst)
      ∧ "joint_weights" ∉ ((DrawPbmSeparate.compile ⟨false, t⟩).vertexBuffers.map Prod.fst)
      ∧ "joint_transforms" ∉ (DrawPbmSeparate.compile ⟨false, t⟩).uniforms
      ∧ (DrawPbmSeparate.compile ⟨true, t⟩).textures
        = (DrawPbmSeparate.compile ⟨false, t⟩).textures
      ∧ (DrawPbmSeparate.compile ⟨true, t⟩).outputs
        = (DrawPbmSeparate.compile ⟨false, t⟩).outputs := by
  intro t
  rcases t with _ | ⟨m, b, d⟩ <;>
    refine ⟨rfl, rfl, ?_, ?_, ?_, rfl, rfl⟩ <;>
      first
        | exact show "joint_ids" ∉ ["position", "normal", "tangent",
            "tex_coord"] by decide
        | exact show "joint_weights" ∉ ["position", "normal", "tangent",
            "tex_coord"] by decide
        | exact show "joint_transforms" ∉ ["per_object_transform",
            "per_camera_viewproj", "ambient_color", "light_array"] by decide

/-! ### Claim C6 -/

/-- The output-target event compile issues for a transparency setting:
blended with exactly the caller-supplied mask, blend function and depth
mode when one was supplied, otherwise an opaque depth-tested write. -/
def outputEventFor :
    Option (ColorMask × Blend × Option DepthMode) → RegEvent
  | some (mask, blend, depth) => .outputBlended "color" mask blend depth
  | none => .outputOpaque "color" (some DepthMode.LessEqualWrite)

/-- The registrations compile performs before configuring the output,
unskinned configuration. -/
def preEventsUnskinned : List RegEvent :=
  [.vertexBuffer "position" positionSize,
   .vertexBuffer "normal" normalSize,
   .vertexBuffer "tangent" tangentSize,
   .vertexBuffer "tex_coord" texCoordSize,
   .uniform "per_object_transform", .uniform "per_camera_viewproj",
   .uniform "ambient_color", .uniform "light_array",
   .texture "albedo", .texture "emissive", .texture "normal",
   .texture "metallic_roughness", .texture "ambient_occlusion"]

/-- The registrations compile performs before configuring the output,
skinned configuration. -/
def preEventsSkinned : List RegEvent :=
  [.vertexBuffer "position" positionSize,
   .vertexBuffer "normal" normalSize,
   .vertexBuffer "tangent" tangentSize,
   .vertexBuffer "tex_coord" texCoordSize,
   .vertexBuffer "joint_ids" jointIdsSize,
   .vertexBuffer "joint_weights" jointWeightsSize,
   .uniform "joint_transforms",
   .uniform "per_object_transform", .uniform "per_camera_viewproj",
   .uniform "ambient_color", .uniform "light_array",
   .texture "albedo", .texture "emissive", .texture "normal",
   .texture "metallic_roughness", .texture "ambient_occlusion"]

/-- Claim C6: compile configures the Effect's output as a function of
the transparency setting — blended with exactly the caller-supplied
(mask, blend, depth) when one was supplied via with_transparency,
otherwise an opaque depth-tested write — and this configuration is the
last registration, after every vertex buffer, uniform and texture
registration. -/
theorem output_configured_last_from_transparency :
    ∀ (sk : Bool) (t : Option (ColorMask × Blend × Option DepthMode)),
      ∃ pre : List RegEvent,
        (DrawPbmSeparate.compile ⟨sk, t⟩).events = pre ++ [outputEventFor t]
        ∧ ∀ ev ∈ pre, ev.isOutput = false := by
  intro sk t
  rcases sk with _ | _
  · rcases t with _ | ⟨m, b, d⟩ <;>
      exact ⟨preEventsUnskinned, rfl, by decide⟩
  · rcases t with _ | ⟨m, b, d⟩ <;>
      exact ⟨preEventsSkinned, rfl, by decide⟩

/-! ### Concrete frames used by counterexamples and witnesses -/

/-- A frame with no entities, no camera, empty storages. -/
def emptyWorld : World :=
  { entities := [], activeCamera := none, cameraStore := fun _ => none,
    ambient := 0, meshStorage := fun _ => none, materialDefaults := 7,
    backToFront := [], meshHandle := fun _ => none,
    material := fun _ => none, globalT := fun _ => none,
    lightStore := fun _ => none, joints := fun _ => none,
    transparent := fun _ => false }

/-- Entity 0 has MeshHandle 5, Material and GlobalTransform, is not
Transparent — but handle 5 is unresolved in the mesh asset storage. -/
def wUnresolvedMesh : World :=
  { emptyWorld with
    entities := [0], meshHandle := fun _ => some 5,
    material := fun _ => some 1, globalT := fun _ => some 2 }

/-- Entity 0 has every component and a resolved mesh but carries the
Transparent marker. -/
def wTranspEnt : World :=
  { emptyWorld with
    entities := [0], meshHandle := fun _ => some 3,
    meshStorage := fun _ => some 9, material := fun _ => some 1,
    globalT := fun _ => some 2, transparent := fun _ => true }

/-- Entity 0 has every component, a resolved mesh, no Transparent
marker — yet it appears in the back-to-front ordering list. -/
def wListedOpaque : World :=
  { emptyWorld with
    entities := [0], meshHandle := fun _ => some 3,
    meshStorage := fun _ => some 9, material := fun _ => some 1,
    globalT := fun _ => some 2, backToFront := [0] }

/-- Entity 0 is Transparent and listed back-to-front; entity 1 is an
ordinary opaque entity. -/
def wMarkedList : World :=
  { emptyWorld with
    entities := [0, 1], meshHandle := fun _ => some 3,
    meshStorage := fun _ => some 9, material := fun _ => some 1,
    globalT := fun _ => some 2, backToFront := [0],
    transparent := fun e => e == 0 }

/-- Entity 0 is listed back-to-front with mesh and material present but
no GlobalTransform component. -/
def wNoGlobal : World :=
  { emptyWorld with
    entities := [0], backToFront := [0],
    meshHandle := fun _ => some 4, meshStorage := fun _ => some 6,
    material := fun _ => some 1 }

/-- Three entities each carrying a light component. -/
def wManyLights : World :=
  { emptyWorld with
    entities := [0, 1, 2],
    lightStore := fun e =>
      if e == 0 then some (.point 0) else some (.directional e) }

/-- The active-camera reference names entity 0, which has both a Camera
and a GlobalTransform. -/
def wActiveCam : World :=
  { emptyWorld with
    entities := [0], activeCamera := some 0,
    cameraStore := fun _ => some 10, globalT := fun _ => some 20 }

/-- No active-camera reference; entity 1 is the first (and only) camera
of the query. -/
def wFallbackCam : World :=
  { emptyWorld with
    entities := [1], activeCamera := none,
    cameraStore := fun _ => some 11, globalT := fun _ => some 21 }

/-- The skinned pass configuration. -/
def pSkinned : DrawPbmSeparate := DrawPbmSeparate.new.with_vertex_skinning

/-- Entity 0 is drawable in both loops (every required datum present)
but has no JointTransforms component. -/
def wSkinNoJoints : World :=
  { emptyWorld with
    entities := [0], backToFront := [0],
    meshHandle := fun _ => some 2, meshStorage := fun _ => some 4,
    material := fun _ => some 1, globalT := fun _ => some 3 }

/-! ### Claim C1 -/

/-- Claim C1: for every frame and every transparent-ordering list, the
DrawTransparent phase issues its draw calls in exactly the order the
entities appear in the back-to-front list — it appends, to the encoder,
the per-entity draws of the listed entities in list order, an entry that
is skipped being omitted without changing the relative order of the
remaining draws; within a full apply the transparent draws follow the
opaque ones in that same list order. -/
theorem transparent_draws_follow_list_order :
    ∀ (p : DrawPbmSeparate) (w : World) (cam : CameraArgs)
      (enc : List DrawCall) (maxLights : Nat),
      transparentPhase p w cam enc
        = enc ++ w.backToFront.filterMap (transparentEntityCall p w cam)
      ∧ (p.apply maxLights w).2
        = opaquePhase p w (get_camera w) []
          ++ w.backToFront.filterMap
              (transparentEntityCall p w (get_camera w)) := by
  intro p w cam enc maxLights
  exact ⟨transparentPhase_filterMap p w cam enc,
    transparentPhase_filterMap p w (get_camera w)
      (opaquePhase p w (get_camera w) [])⟩

/-! ### Claim C2 -/

/-- Claim C2 counterexample: in `wUnresolvedMesh`, entity 0 has all of
MeshHandle, Material and GlobalTransform and no Transparent marker, yet
the opaque loop issues no draw call for it (its handle is unresolved in
the mesh asset storage) — the drawn set is not exactly the
component-based set the claim states. -/
theorem opaque_not_exactly_component_set :
    (wUnresolvedMesh.entities.filter fun e =>
        (wUnresolvedMesh.meshHandle e).isSome
          && (wUnresolvedMesh.material e).isSome
          && (wUnresolvedMesh.globalT e).isSome
          && !(wUnresolvedMesh.transparent e)) = [0]
    ∧ opaquePhase DrawPbmSeparate.new wUnresolvedMesh identityCamera [] = []
    ∧ (opaquePhase DrawPbmSeparate.new wUnresolvedMesh identityCamera
        []).length
        ≠ (wUnresolvedMesh.entities.filter fun e =>
            (wUnresolvedMesh.meshHandle e).isSome
              && (wUnresolvedMesh.material e).isSome
              && (wUnresolvedMesh.globalT e).isSome
              && !(wUnresolvedMesh.transparent e)).length := by
  decide

/-- Claim C2 (amended): the opaque loop appends, in entity-storage
order, exactly one draw call for each entity that has MeshHandle,
Material and GlobalTransform, does not carry the Transparent marker, and
whose mesh handle resolves in the mesh asset storage; in particular an
entity carrying the Transparent marker never yields an opaque draw. -/
theorem opaque_draws_characterized :
    ∀ (p : DrawPbmSeparate) (w : World) (cam : CameraArgs)
      (enc : List DrawCall),
      opaquePhase p w cam enc
        = enc ++ w.entities.filterMap (opaqueEntityCall p w cam)
      ∧ ∀ e : EntityId, w.transparent e = true →
          opaqueEntityCall p w cam e = none := by
  intro p w cam enc
  exact ⟨opaquePhase_filterMap p w cam enc,
    fun e he => opaqueEntityCall_of_transparent p w cam e he⟩

/-- Witness for the amended C2 at a concrete frame: the fully equipped
but Transparent-marked entity 0 of `wTranspEnt` yields no opaque draw. -/
theorem opaque_draws_characterized_witness :
    wTranspEnt.transparent 0 = true
    ∧ opaqueEntityCall DrawPbmSeparate.new wTranspEnt identityCamera 0 = none
    ∧ opaquePhase DrawPbmSeparate.new wTranspEnt identityCamera [] = [] :=
  ⟨by decide,
   (opaque_draws_characterized DrawPbmSeparate.new wTranspEnt
      identityCamera []).2 0 (by decide),
   by decide⟩

/-! ### Claim C3 -/

/-- Claim C3 counterexample: in `wListedOpaque`, entity 0 has every
component, a resolved mesh and no Transparent marker, and appears in the
back-to-front ordering list; it receives a draw call from the opaque
loop and from the transparent loop in the same apply — the frame's
encoder carries its draw twice. -/
theorem entity_drawn_by_both_loops :
    drawnByOpaque DrawPbmSeparate.new wListedOpaque identityCamera 0 = true
    ∧ drawnByTransparent DrawPbmSeparate.new wListedOpaque identityCamera 0
        = true
    ∧ (DrawPbmSeparate.new.apply 8 wListedOpaque).2
        = [{ mesh := 9, material := 1, globalT := 2, joints := none,
             camera := identityCamera },
           { mesh := 9, material := 1, globalT := 2, joints := none,
             camera := identityCamera }] := by
  decide

/-- Claim C3 (amended): whenever the transparent-ordering list contains
only entities carrying the Transparent marker — the contract of the
external ordering system — no entity receives a draw call from both the
opaque and the transparent loop in the same traversal; for an arbitrary
ordering list, a listed entity without the marker is drawn by both. -/
theorem no_double_draw_under_marked_ordering :
    ∀ (p : DrawPbmSeparate) (w : World) (cam : CameraArgs) (e : EntityId),
      (∀ x ∈ w.backToFront, w.transparent x = true) →
      ¬(drawnByOpaque p w cam e = true
        ∧ drawnByTransparent p w cam e = true) := by
  intro p w cam e hmark h
  obtain ⟨ho, ht⟩ := h
  rcases Bool.and_eq_true_iff.mp ht with ⟨ht1, _⟩
  rcases Bool.and_eq_true_iff.mp ho with ⟨_, ho2⟩
  have htr : w.transparent e = true :=
    hmark e (List.mem_of_elem_eq_true ht1)
  rw [opaqueEntityCall_of_transparent p w cam e htr] at ho2
  simp at ho2

/-- Witness for the amended C3 at a concrete frame whose ordering list
holds only Transparent-marked entities. -/
theorem no_double_draw_under_marked_ordering_witness :
    (∀ x ∈ wMarkedList.backToFront, wMarkedList.transparent x = true)
    ∧ ¬(drawnByOpaque DrawPbmSeparate.new wMarkedList identityCamera 0 = true
        ∧ drawnByTransparent DrawPbmSeparate.new wMarkedList identityCamera 0
            = true) :=
  ⟨by decide,
   no_double_draw_under_marked_ordering DrawPbmSeparate.new wMarkedList
     identityCamera 0 (by decide)⟩

/-! ### Claim C4 -/

/-- Claim C4: in the transparent loop, a listed entity missing its
MeshHandle, Material or GlobalTransform component is silently skipped
for the current traversal: the loop body leaves the encoder exactly as
it was (no draw call is issued, and the body — a total function — raises
no error), and the entity contributes nothing to the frame's transparent
draws.  The traversal keeps no state across frames, so the skip is
scoped to the current frame. -/
theorem transparent_missing_component_skipped :
    ∀ (p : DrawPbmSeparate) (w : World) (cam : CameraArgs)
      (enc : List DrawCall) (e : EntityId),
      w.meshHandle e = none ∨ w.material e = none ∨ w.globalT e = none →
      transparentStep p w cam enc e = enc
      ∧ transparentEntityCall p w cam e = none := by
  intro p w cam enc e h
  rcases hmh : w.meshHandle e with _ | hh
  · exact ⟨by simp [transparentStep, hmh],
      by simp [transparentEntityCall, hmh]⟩
  · rcases hms : w.meshStorage hh with _ | m <;>
      rcases hmat : w.material e with _ | mat <;>
        rcases hg : w.globalT e with _ | g <;>
          simp_all [transparentStep, transparentEntityCall, draw_mesh]

/-- Witness for C4 at a concrete frame: listed entity 0 of `wNoGlobal`
has a resolved mesh and a material but no GlobalTransform, and is
skipped. -/
theorem transparent_missing_component_skipped_witness :
    wNoGlobal.globalT 0 = none
    ∧ transparentStep DrawPbmSeparate.new wNoGlobal identityCamera [] 0 = []
    ∧ transparentEntityCall DrawPbmSeparate.new wNoGlobal identityCamera 0
        = none :=
  ⟨rfl,
   (transparent_missing_component_skipped DrawPbmSeparate.new wNoGlobal
      identityCamera [] 0 (Or.inr (Or.inr rfl))).1,
   (transparent_missing_component_skipped DrawPbmSeparate.new wNoGlobal
      identityCamera [] 0 (Or.inr (Or.inr rfl))).2⟩

/-! ### Claim C7 -/

/-- Claim C7: for every light population and every fixed shader maximum,
the light upload never writes more than max-count lights; the uploaded
lights are a prefix of the lights gathered in entity-iteration order (so
the excess is dropped from the tail of that order, not reordered); and
when the gathered lights exceed the maximum, exactly max-count lights
are written.  The upload is a total function: no compilation or runtime
error is raised. -/
theorem light_upload_truncated_at_max :
    ∀ (maxLights : Nat) (w : World),
      (set_light_args maxLights w).lights.length ≤ maxLights
      ∧ (set_light_args maxLights w).lights <+: gatherLights w
      ∧ (maxLights < (gatherLights w).length →
          (set_light_args maxLights w).lights.length = maxLights) := by
  intro maxLights w
  refine ⟨?_, List.take_prefix _ _, ?_⟩
  · simp [set_light_args, List.length_take]
  · intro h
    simp [set_light_args, List.length_take]
    omega

/-- Witness for C7 at a concrete frame: three gathered lights against a
maximum of two — exactly the first two are uploaded. -/
theorem light_upload_truncated_at_max_witness :
    2 < (gatherLights wManyLights).length
    ∧ (set_light_args 2 wManyLights).lights.length = 2
    ∧ (set_light_args 2 wManyLights).lights
        = [.point 0, .directional 1] :=
  ⟨by decide,
   (light_upload_truncated_at_max 2 wManyLights).2.2 (by decide),
   by decide⟩

/-! ### Claim C8 -/

/-- Claim C8: camera resolution at the start of apply.  When the
active-camera reference names an entity that still has both a Camera and
a GlobalTransform, that entity's matrices are used.  Otherwise — no
reference, or a reference whose entity lost either component — the first
camera of the (storage-order) camera query is used.  When additionally
no camera exists at all, the neutral/identity camera is returned, so the
traversal (a total function) still runs to completion. -/
theorem camera_resolution_cases :
    ∀ w : World,
      (∀ a c g, w.activeCamera = some a → w.cameraStore a = some c →
        w.globalT a = some g → get_camera w = (c, g))
      ∧ ((w.activeCamera = none
            ∨ ∃ a, w.activeCamera = some a
                ∧ (w.cameraStore a = none ∨ w.globalT a = none)) →
          get_camera w = ((cameraJoin w).head?).getD identityCamera)
      ∧ ((w.activeCamera = none
            ∨ ∃ a, w.activeCamera = some a
                ∧ (w.cameraStore a = none ∨ w.globalT a = none)) →
          cameraJoin w = [] → get_camera w = identityCamera) := by
  intro w
  have hfallback :
      (w.activeCamera = none
        ∨ ∃ a, w.activeCamera = some a
            ∧ (w.cameraStore a = none ∨ w.globalT a = none)) →
      get_camera w = ((cameraJoin w).head?).getD identityCamera := by
    intro h
    have hfa : (w.activeCamera.bind fun a =>
        match w.cameraStore a, w.globalT a with
        | some c, some g => some (c, g)
        | _, _ => none) = none := by
      rcases h with h | ⟨a, ha, h⟩
      · rw [h]; rfl
      · rw [ha, Option.some_bind]
        rcases h with h | h
        · rcases hg2 : w.globalT a with _ | g <;> simp [h, hg2]
        · rcases hc2 : w.cameraStore a with _ | c <;> simp [h, hc2]
    rw [get_camera, hfa]
    rcases hh : (cameraJoin w).head? with _ | cg <;> simp [hh]
  refine ⟨?_, hfallback, ?_⟩
  · intro a c g ha hc hg
    rw [get_camera, ha, Option.some_bind, hc, hg]
  · intro h hnil
    rw [hfallback h, hnil]
    rfl

/-- Witness for C8 at three concrete frames: an intact active camera, a
first-of-query fallback, and the identity camera when no camera
exists. -/
theorem camera_resolution_cases_witness :
    get_camera wActiveCam = (10, 20)
    ∧ get_camera wFallbackCam = (11, 21)
    ∧ get_camera emptyWorld = identityCamera :=
  ⟨(camera_resolution_cases wActiveCam).1 0 10 20 rfl rfl rfl,
   ((camera_resolution_cases wFallbackCam).2.1 (Or.inl rfl)).trans
     (by decide),
   (camera_resolution_cases emptyWorld).2.2 (Or.inl rfl) rfl⟩

/-! ### Claim C9 -/

/-- Claim C9: with skinning enabled, an entity whose mesh resolves and
whose material and transform are present but which has no
JointTransforms component is still drawn — by the opaque loop body and
by the transparent loop body alike — with the identity joint set bound;
the absence of JointTransforms never skips the draw and never raises an
error (the loop bodies are total). -/
theorem skinned_entity_without_joints_drawn :
    ∀ (p : DrawPbmSeparate) (w : World) (cam : CameraArgs)
      (enc : List DrawCall) (e : EntityId) (hh : MeshHandle)
      (m : MeshData) (mat : MaterialData) (g : GlobalTransformData),
      p.skinning = true →
      w.meshHandle e = some hh → w.meshStorage hh = some m →
      w.material e = some mat → w.globalT e = some g →
      w.joints e = none →
      opaqueStep p w cam enc (e, hh, mat, g)
        = enc ++ [{ mesh := m, material := mat, globalT := g,
                    joints := some identityJoints, camera := cam }]
      ∧ transparentStep p w cam enc e
        = enc ++ [{ mesh := m, material := mat, globalT := g,
                    joints := some identityJoints, camera := cam }] := by
  intro p w cam enc e hh m mat g hsk hmh hms hmat hg hj
  constructor
  · simp [opaqueStep, draw_mesh, jointsArg, hsk, hms, hj]
  · simp [transparentStep, draw_mesh, jointsArg, hsk, hmh, hms, hmat,
      hg, hj]

/-- Witness for C9 at a concrete frame: skinned pass, entity 0 of
`wSkinNoJoints` has no JointTransforms, and both loop bodies emit its
draw with the identity joint set. -/
theorem skinned_entity_without_joints_drawn_witness :
    pSkinned.skinning = true ∧ wSkinNoJoints.joints 0 = none
    ∧ opaqueStep pSkinned wSkinNoJoints identityCamera [] (0, 2, 1, 3)
        = [{ mesh := 4, material := 1, globalT := 3,
             joints := some identityJoints, camera := identityCamera }]
    ∧ transparentStep pSkinned wSkinNoJoints identityCamera [] 0
        = [{ mesh := 4, material := 1, globalT := 3,
             joints := some identityJoints, camera := identityCamera }] :=
  ⟨rfl, rfl,
   (skinned_entity_without_joints_drawn pSkinned wSkinNoJoints
      identityCamera [] 0 2 4 1 3 rfl rfl rfl rfl rfl rfl).1,
   (skinned_entity_without_joints_drawn pSkinned wSkinNoJoints
      identityCamera [] 0 2 4 1 3 rfl rfl rfl rfl rfl rfl).2⟩

/-- Witness for C5 at the concrete no-transparency configuration. -/
theorem skinning_strictly_adds_joint_bindings_witness :
    (DrawPbmSeparate.compile ⟨true, none⟩).vertexBuffers
      = (DrawPbmSeparate.compile ⟨false, none⟩).vertexBuffers
        ++ [("joint_ids", jointIdsSize), ("joint_weights", jointWeightsSize)]
    ∧ "joint_transforms" ∉ (DrawPbmSeparate.compile ⟨false, none⟩).uniforms
    ∧ (DrawPbmSeparate.compile ⟨true, none⟩).outputs
      = (DrawPbmSeparate.compile ⟨false, none⟩).outputs :=
  ⟨(skinning_strictly_adds_joint_bindings none).1,
   (skinning_strictly_adds_joint_bindings none).2.2.2.2.1,
   (skinning_strictly_adds_joint_bindings none).2.2.2.2.2.2⟩

/-- Witness for C6 at the concrete unskinned, no-transparency
configuration. -/
theorem output_configured_last_from_transparency_witness :
    ∃ pre : List RegEvent,
      (DrawPbmSeparate.compile ⟨false, none⟩).events
        = pre ++ [outputEventFor none]
      ∧ ∀ ev ∈ pre, ev.isOutput = false :=
  output_configured_last_from_transparency false none
